import Mathlib

/-!
Verification development for the sphinx-polyversion revision orchestration
and metadata codec core.  The definitions below are a shallow embedding of
the Python source (`sphinx_polyversion/git.py`, `json.py`, `driver.py`):
pure functions become Lean functions, exception raising becomes `Except`,
and the stateful driver loop becomes explicit state passing.

Modelling conventions used throughout:
* Python `datetime` values are modelled by their timestamp as a `Nat`;
  the stdlib pair `datetime.isoformat` / `datetime.fromisoformat` (a
  bijection between datetimes and their textual form) is modelled by the
  decimal codec `isoformat` / `parseIso` below.
* `re.Pattern.fullmatch` objects held in configuration are modelled by
  their characteristic function `String → Bool` (the regex engine is
  stdlib-external); the one concrete regex of the code, `pattern_ref`
  in `git.py`, is modelled structurally by `refFullmatch`.
* Raising an exception is `Except.error`; the payload is collapsed to the
  distinction the driver code actually branches on (`BuildError` vs any
  other exception class).
-/

set_option maxRecDepth 4000

/-- `GitRefType` enum from `git.py` (members `TAG` and `BRANCH`). -/
inductive GitRefType where
  | TAG
  | BRANCH
deriving DecidableEq, Repr

/-- `self.name` of a `GitRefType` member, as used by `_json_fields`. -/
def GitRefType.nameStr : GitRefType → String
  | .TAG => "TAG"
  | .BRANCH => "BRANCH"

/-- `GitRefType._from_json_fields`: `cls[o]`, raising `KeyError` for any
other string (modelled by `Option.none`). -/
def GitRefType.fromJsonFields : String → Option GitRefType
  | "TAG" => some .TAG
  | "BRANCH" => some .BRANCH
  | _ => none

/-- The `GitRef` named tuple from `git.py`: name, object hash, full ref,
type, creation date (datetime, modelled as `Nat`), optional remote. -/
structure GitRef where
  name : String
  obj : String
  ref : String
  type_ : GitRefType
  date : Nat
  remote : Option String := none
deriving DecidableEq, Repr

/-- `GitRef.__lt__`: `self.date < other.date`. -/
def GitRef.lt (a b : GitRef) : Bool := a.date < b.date

/-- Python compares strings by code points; Lean `compare` on `String`
is the same lexicographic order on characters. -/
def strCmp (a b : String) : Ordering := compare a b

/-- The comparison Python actually performs for `>=`, `>` and `<=` on
`GitRef` values.  `GitRef` is a `NamedTuple`, so `tuple` already defines
all four comparison dunders and `functools.total_ordering` adds nothing
(it only fills in operators the class does not define); hence those three
operators are inherited tuple lexicographic comparison, not date order.
Tuple comparison compares fields left to right, skips equal fields, and
decides at the first unequal pair; comparing an unequal pair that Python
cannot order (`GitRefType` members, or `None` against a string) raises
`TypeError`, modelled by `Except.error`. -/
def GitRef.pyCmp (a b : GitRef) : Except Unit Ordering :=
  if a.name ≠ b.name then .ok (strCmp a.name b.name)
  else if a.obj ≠ b.obj then .ok (strCmp a.obj b.obj)
  else if a.ref ≠ b.ref then .ok (strCmp a.ref b.ref)
  else if a.type_ ≠ b.type_ then .error ()
  else if a.date ≠ b.date then .ok (compare a.date b.date)
  else
    match a.remote, b.remote with
    | Option.none, Option.none => .ok .eq
    | some x, some y => if x ≠ y then .ok (strCmp x y) else .ok .eq
    | _, _ => .error ()

/-- Python `a >= b` on two `GitRef` values (tuple comparison). -/
def GitRef.pyGe (a b : GitRef) : Except Unit Bool :=
  (GitRef.pyCmp a b).map (fun o => o ≠ Ordering.lt)

/- ----------------------------------------------------------------- -/
/- Decimal codec standing in for `datetime.isoformat`/`fromisoformat`
   and for `datetime.strptime` of the `git for-each-ref` date field.   -/

/-- Decimal digit character for `n < 10`. -/
def digitChar (n : Nat) : Char := Char.ofNat (48 + n)

/-- Decimal digits of a natural number, most significant first. -/
def natToDigits (n : Nat) : List Char :=
  if h : n < 10 then [digitChar n]
  else natToDigits (n / 10) ++ [digitChar (n % 10)]
decreasing_by exact Nat.div_lt_self (Nat.lt_of_lt_of_le (by omega) (Nat.le_of_not_lt h)) (by omega)

/-- Textual form of a modelled datetime (see module docstring). -/
def isoformat (d : Nat) : String := String.mk (natToDigits d)

/-- Is `c` a decimal digit? -/
def isDigitChar (c : Char) : Bool := 48 ≤ c.toNat ∧ c.toNat ≤ 57

/-- Parse the textual form of a modelled datetime; `Option.none` models
the `ValueError` that `fromisoformat`/`strptime` raise on malformed
input. -/
def parseIso (s : String) : Option Nat :=
  if s.data ≠ [] ∧ s.data.all isDigitChar then
    some (s.data.foldl (fun a c => a * 10 + (c.toNat - 48)) 0)
  else none

/- ----------------------------------------------------------------- -/
/- Metadata codec (`json.py`).                                        -/

/-- The Python value universe the codec operates on (`JSONable` in
`json.py`): JSON scalars, lists, tuples, string-keyed dicts, plus the
extensible types relevant here (`datetime` via `std_hook`, and the
`Transformable` classes `GitRefType` and `GitRef` from `git.py`). -/
inductive PyValue where
  | null
  | bool (b : Bool)
  | int (n : Int)
  | str (s : String)
  | list (xs : List PyValue)
  | tuple (xs : List PyValue)
  | dict (kvs : List (String × PyValue))
  | dt (d : Nat)
  | refType (t : GitRefType)
  | ref (r : GitRef)

/-- Identifier `Encoder.determine_classname` produces for the `std_hook`
class (shown literally in `tests/test_json.py`). -/
def stdHookId : String := "sphinx_polyversion.json.std_hook"

/-- Identifier for a `datetime` instance: `inspect.getmodule` returns
`None` for the C-implemented instance, so the module part is empty
(the wire string is literally `".datetime"`, see `tests/test_json.py`). -/
def dtInstanceId : String := ".datetime"

/-- Identifier for the `GitRefType` class. -/
def gitRefTypeId : String := "sphinx_polyversion.git.GitRefType"

/-- Identifier for the `GitRef` class. -/
def gitRefId : String := "sphinx_polyversion.git.GitRef"

/-- `Encoder.transform` of a `datetime` value: `std_hook.fields` returns
`o.isoformat()` and the result is wrapped as
`{"__jsonhook__": (hook id, instance id, transformed fields)}`;
transforming the string field returns it unchanged. -/
def dtWire (d : Nat) : PyValue :=
  .dict [("__jsonhook__", .tuple [.str stdHookId, .str dtInstanceId, .str (isoformat d)])]

/-- `Encoder.transform` of a `GitRefType` member: `_json_fields` returns
`self.name` and the result is wrapped as
`{"__jsonclass__": (class id, transformed fields)}`. -/
def refTypeWire (t : GitRefType) : PyValue :=
  .dict [("__jsonclass__", .tuple [.str gitRefTypeId, .str t.nameStr])]

/-- Transform of the optional `remote` field (`None` or a string). -/
def optStrWire : Option String → PyValue
  | Option.none => .null
  | some s => .str s

/-- `Encoder.transform` of a `GitRef`: `_json_fields` returns
`tuple(self)` (the six fields in order) and transforming that tuple
yields the list of the transformed fields, wrapped in
`{"__jsonclass__": (class id, fields)}`.  The nested `GitRefType` and
`datetime` fields transform as above; this equation unrolls the
call `self.transform(fields)` of the source on that known field shape. -/
def gitRefWire (r : GitRef) : PyValue :=
  .dict [("__jsonclass__", .tuple [.str gitRefId,
    .list [.str r.name, .str r.obj, .str r.ref,
           refTypeWire r.type_, dtWire r.date, optStrWire r.remote]])]

mutual

/-- `Encoder.transform` (`json.py`) for an encoder whose hook set is
`{std_hook}` (the state of `GLOBAL_ENCODER`): registered hooks are
tried first (only `datetime` values match), then classes providing
`_json_fields` (`GitRefType`, `GitRef`), then dicts and sequences are
traversed (both lists and tuples produce a transformed list), and plain
scalars pass through. -/
def Encoder.transform : PyValue → PyValue
  | .null => .null
  | .bool b => .bool b
  | .int n => .int n
  | .str s => .str s
  | .dt d => dtWire d
  | .refType t => refTypeWire t
  | .ref r => gitRefWire r
  | .dict kvs => .dict (Encoder.transformKVs kvs)
  | .list xs => .list (Encoder.transformList xs)
  | .tuple xs => .list (Encoder.transformList xs)

/-- Elementwise `transform` of a Python sequence. -/
def Encoder.transformList : List PyValue → List PyValue
  | [] => []
  | x :: xs => Encoder.transform x :: Encoder.transformList xs

/-- Valuewise `transform` of a Python dict (keys unchanged). -/
def Encoder.transformKVs : List (String × PyValue) → List (String × PyValue)
  | [] => []
  | (k, v) :: kvs => (k, Encoder.transform v) :: Encoder.transformKVs kvs

end

mutual

/-- The effect of `json.dumps` followed by textual `json` parsing on a
wire value: every tuple comes back as a list; everything else in the
wire fragment of `PyValue` is preserved.  (The non-wire constructors
never occur in `Encoder.transform` output and are left unchanged.) -/
def jsonDumpLoad : PyValue → PyValue
  | .null => .null
  | .bool b => .bool b
  | .int n => .int n
  | .str s => .str s
  | .dt d => .dt d
  | .refType t => .refType t
  | .ref r => .ref r
  | .dict kvs => .dict (jsonDumpLoadKVs kvs)
  | .list xs => .list (jsonDumpLoadList xs)
  | .tuple xs => .list (jsonDumpLoadList xs)

/-- Elementwise `jsonDumpLoad` on array elements. -/
def jsonDumpLoadList : List PyValue → List PyValue
  | [] => []
  | x :: xs => jsonDumpLoad x :: jsonDumpLoadList xs

/-- Valuewise `jsonDumpLoad` on object entries. -/
def jsonDumpLoadKVs : List (String × PyValue) → List (String × PyValue)
  | [] => []
  | (k, v) :: kvs => (k, jsonDumpLoad v) :: jsonDumpLoadKVs kvs

end

/-- First-match lookup of a key in decoded object entries; models
`key in o` followed by `o[key]` on a Python dict. -/
def pyLookup (key : String) : List (String × PyValue) → Option PyValue
  | [] => Option.none
  | (k, v) :: kvs => if k = key then some v else pyLookup key kvs

/-- `GitRef._from_json_fields`: `cls(*o)` on the decoded field list.
A `NamedTuple` accepts five or six positional fields (`remote` defaults
to `None`); fewer or more raise `TypeError` (`Except.error`).  The
decoded fields of a value encoded by this codec are well-typed; a
constructor call on ill-typed fields is also modelled as `.error`. -/
def GitRef.fromJsonFields : PyValue → Except Unit PyValue
  | .list [.str n, .str o, .str rf, .refType t, .dt d] =>
      .ok (.ref { name := n, obj := o, ref := rf, type_ := t, date := d, remote := Option.none })
  | .list [.str n, .str o, .str rf, .refType t, .dt d, .null] =>
      .ok (.ref { name := n, obj := o, ref := rf, type_ := t, date := d, remote := Option.none })
  | .list [.str n, .str o, .str rf, .refType t, .dt d, .str s] =>
      .ok (.ref { name := n, obj := o, ref := rf, type_ := t, date := d, remote := some s })
  | _ => .error ()

/-- `std_hook.from_json`: `datetime.fromisoformat(o)`; a non-string or
malformed field raises (`Except.error`). -/
def stdHookFromJson : PyValue → Except Unit PyValue
  | .str s =>
    match parseIso s with
    | some d => .ok (.dt d)
    | Option.none => .error ()
  | _ => .error ()

/-- `Decoder.object_hook` (`json.py`) for the registrations of
`GLOBAL_DECODER` (`type_dict` holds `GitRefType` and `GitRef`;
`type_hooks` holds `std_hook`): a dict containing `"__jsonclass__"` is
unpacked into `(classname, fields)`; a registered classname dispatches
to `_from_json_fields`, an unregistered one falls through and the dict
itself is returned.  Otherwise a dict containing `"__jsonhook__"` is
unpacked into `(hookname, classname, fields)` and treated likewise via
`from_json`.  A present wrapper key whose payload does not unpack into
the expected arity raises (`Except.error`).  Any other dict is returned
unchanged. -/
def Decoder.object_hook (kvs : List (String × PyValue)) : Except Unit PyValue :=
  match pyLookup "__jsonclass__" kvs with
  | some payload =>
    match payload with
    | .list [.str classname, fields] =>
      if classname = gitRefTypeId then
        match fields with
        | .str s =>
          match GitRefType.fromJsonFields s with
          | some t => .ok (.refType t)
          | Option.none => .error ()
        | _ => .error ()
      else if classname = gitRefId then
        GitRef.fromJsonFields fields
      else
        .ok (.dict kvs)
    | .list [_, _] => .ok (.dict kvs)
    | _ => .error ()
  | Option.none =>
    match pyLookup "__jsonhook__" kvs with
    | some payload =>
      match payload with
      | .list [.str hookname, _, fields] =>
        if hookname = stdHookId then stdHookFromJson fields
        else .ok (.dict kvs)
      | .list [_, _, _] => .ok (.dict kvs)
      | _ => .error ()
    | Option.none => .ok (.dict kvs)

mutual

/-- `Decoder.decode` below the text layer: the `json` parser rebuilds
the wire value and applies `object_hook` to every object, innermost
first.  Composed with `jsonDumpLoad ∘ Encoder.transform` this is exactly
`GLOBAL_DECODER.decode (GLOBAL_ENCODER.encode x)`. -/
def Decoder.decodeWire : PyValue → Except Unit PyValue
  | .null => .ok .null
  | .bool b => .ok (.bool b)
  | .int n => .ok (.int n)
  | .str s => .ok (.str s)
  | .dt d => .ok (.dt d)
  | .refType t => .ok (.refType t)
  | .ref r => .ok (.ref r)
  | .tuple xs => do
    let ys ← Decoder.decodeWireList xs
    .ok (.tuple ys)
  | .list xs => do
    let ys ← Decoder.decodeWireList xs
    .ok (.list ys)
  | .dict kvs => do
    let decoded ← Decoder.decodeWireKVs kvs
    Decoder.object_hook decoded

/-- Elementwise decode of array elements. -/
def Decoder.decodeWireList : List PyValue → Except Unit (List PyValue)
  | [] => .ok []
  | x :: xs => do
    let y ← Decoder.decodeWire x
    let ys ← Decoder.decodeWireList xs
    .ok (y :: ys)

/-- Valuewise decode of object entries (the parser decodes the values,
then hands the finished entry list to `object_hook`). -/
def Decoder.decodeWireKVs : List (String × PyValue) → Except Unit (List (String × PyValue))
  | [] => .ok []
  | (k, v) :: kvs => do
    let y ← Decoder.decodeWire v
    let ys ← Decoder.decodeWireKVs kvs
    .ok ((k, y) :: ys)

end

/-- `decode (encode x)` for the global encoder/decoder pair: transform,
push through the JSON text layer, re-parse applying `object_hook`. -/
def decodeEncode (x : PyValue) : Except Unit PyValue :=
  Decoder.decodeWire (jsonDumpLoad (Encoder.transform x))

/-- The subclass of `PyValue` for which the codec round-trips: scalars,
lists, dicts that avoid the two reserved wrapper keys, the registered
extensible values, and nested combinations thereof.  Tuples are
deliberately absent: the JSON text layer returns them as lists. -/
inductive RT : PyValue → Prop where
  | null : RT .null
  | bool (b : Bool) : RT (.bool b)
  | int (n : Int) : RT (.int n)
  | str (s : String) : RT (.str s)
  | dt (d : Nat) : RT (.dt d)
  | refType (t : GitRefType) : RT (.refType t)
  | ref (r : GitRef) : RT (.ref r)
  | list (xs : List PyValue) : (∀ x ∈ xs, RT x) → RT (.list xs)
  | dict (kvs : List (String × PyValue)) : (∀ kv ∈ kvs, RT kv.2) →
      (∀ kv ∈ kvs, kv.1 ≠ "__jsonclass__" ∧ kv.1 ≠ "__jsonhook__") → RT (.dict kvs)

/- ----------------------------------------------------------------- -/
/- Revision grouping and filtering (`git.py`).                        -/

/-- `refs_by_type` applied to a re-iterable collection (list/tuple):
both `filter` passes traverse the full input. -/
def refs_by_type (refs : List GitRef) : List GitRef × List GitRef :=
  (refs.filter (fun r => r.type_ == GitRefType.BRANCH),
   refs.filter (fun r => r.type_ == GitRefType.TAG))

/-- `refs_by_type` applied to a single-pass iterator (the declared
parameter type `Iterator[GitRef]`): the first `list(filter(...))`
exhausts the iterator, so the second filter pass sees no elements. -/
def refs_by_type_iter (refs : List GitRef) : List GitRef × List GitRef :=
  (refs.filter (fun r => r.type_ == GitRefType.BRANCH),
   ([] : List GitRef).filter (fun r => r.type_ == GitRefType.TAG))

/-- Configuration of the `Git` version provider: the two compiled name
patterns (modelled by their `fullmatch` characteristic functions), the
remote selector, and the optional secondary predicate (with the
repository root already applied; the possibly-awaitable result is
collapsed to its value). -/
structure GitCfg where
  branch_regex : String → Bool
  tag_regex : String → Bool
  remote : Option String := none
  pred : Option (GitRef → Bool) := none

/-- `Git.predicate` (`git.py`): kind-specific regex fullmatch on the
name, conjunction with `ref.remote == self.remote`, then the optional
secondary predicate; a false secondary predicate returns `False`. -/
def Git.predicate (g : GitCfg) (ref : GitRef) : Bool :=
  let mtch :=
    match ref.type_ with
    | .TAG => g.tag_regex ref.name
    | .BRANCH => g.branch_regex ref.name
  if !(decide (ref.remote = g.remote) && mtch) then false
  else
    match g.pred with
    | some p => if !(p ref) then false else true
    | Option.none => true

/- ----------------------------------------------------------------- -/
/- Revision listing (`_parse_ref` / `_get_all_refs` / `Git.retrieve`). -/

/-- Python `line.split("\t")` on the underlying characters. -/
def splitOnTab : List Char → List (List Char)
  | [] => [[]]
  | c :: rest =>
    match splitOnTab rest with
    | [] => [[]]
    | grp :: grps => if c = '\t' then [] :: grp :: grps else (c :: grp) :: grps

/-- Python `line.split("\t")`. -/
def splitTabs (s : String) : List String := (splitOnTab s.data).map String.mk

/-- A `\w` character (word character; ASCII view of the pattern). -/
def isWordChar (c : Char) : Bool := c.isAlphanum || c = '_'

/-- Split a character list at its first slash, if any. -/
def splitFirstSlash : List Char → Option (List Char × List Char)
  | [] => Option.none
  | c :: rest =>
    if c = '/' then some ([], rest)
    else (splitFirstSlash rest).map (fun p => (c :: p.1, p.2))

/-- Second alternative of `pattern_ref`:
`remotes/(?P<remote>[^/]+)/(?P<name>\S+)` against the text after
`refs/`.  `[^/]+` cannot cross a slash, so the remote group is the
segment before the first slash. -/
def refAlt2 (rest : List Char) : Option (String × Option String × String) :=
  match rest with
  | 'r' :: 'e' :: 'm' :: 'o' :: 't' :: 'e' :: 's' :: '/' :: r2 =>
    match splitFirstSlash r2 with
    | some (rem, n) =>
      if rem ≠ [] ∧ n ≠ [] ∧ n.all (fun c => !c.isWhitespace) then
        some (String.mk (('r' :: 'e' :: 'm' :: 'o' :: 't' :: 'e' :: 's' :: '/' :: rem)),
              some (String.mk rem), String.mk n)
      else Option.none
    | Option.none => Option.none
  | _ => Option.none

/-- `pattern_ref.fullmatch`:
`refs/(?P<type>\w+|remotes/(?P<remote>[^/]+))/(?P<name>\S+)`.
The `\w+` alternative cannot cross a slash, so the type group is the
segment before the first slash after `refs/`; if that alternative
fails, the `remotes/` alternative is tried.  Returns the captured
`(type, remote, name)` groups. -/
def refFullmatch (ref : String) : Option (String × Option String × String) :=
  match ref.data with
  | 'r' :: 'e' :: 'f' :: 's' :: '/' :: rest =>
    (match splitFirstSlash rest with
     | some (t, n) =>
       if t ≠ [] ∧ t.all isWordChar ∧ n ≠ [] ∧ n.all (fun c => !c.isWhitespace) then
         some (String.mk t, Option.none, String.mk n)
       else refAlt2 rest
     | Option.none => Option.none)
  | _ => Option.none

/-- `_parse_ref` (`git.py`): split the `git for-each-ref` output line
into object hash, refname and date (a wrong field count raises
`ValueError` when unpacking — `Except.error`), parse the date
(`strptime`; malformed dates raise `ValueError`), then classify the
refname: no `pattern_ref` match logs a warning and skips
(`Option.none`); `heads` gives a branch, `tags` a tag, a captured
remote group a remote branch; any other type logs and skips. -/
def parseRef (line : String) : Except Unit (Option GitRef) :=
  match splitTabs line with
  | [obj, ref, dateStr] =>
    match parseIso dateStr with
    | Option.none => .error ()
    | some date =>
      match refFullmatch ref with
      | Option.none => .ok Option.none
      | some (tstr, remote, name) =>
        if tstr = "heads" then
          .ok (some { name := name, obj := obj, ref := ref, type_ := .BRANCH, date := date })
        else if tstr = "tags" then
          .ok (some { name := name, obj := obj, ref := ref, type_ := .TAG, date := date })
        else
          match remote with
          | some rem =>
            .ok (some { name := name, obj := obj, ref := ref, type_ := .BRANCH,
                        date := date, remote := some rem })
          | Option.none => .ok Option.none
  | _ => .error ()

/-- `_get_all_refs` over the lines produced by `git for-each-ref`
(the subprocess output is the model input): parse each line in order,
yield the parsed refs, skip the `None` results; an exception from
`_parse_ref` propagates and aborts the listing. -/
def getAllRefs : List String → Except Unit (List GitRef)
  | [] => .ok []
  | l :: ls => do
    let r ← parseRef l
    let rest ← getAllRefs ls
    .ok (match r with | some g => g :: rest | Option.none => rest)

/-- The refs a well-formed line list yields (skipping the irrelevant
entries). -/
def goodRefs (lines : List String) : List GitRef :=
  lines.filterMap (fun l =>
    match parseRef l with
    | .ok (some g) => some g
    | _ => Option.none)

/-- `Git.retrieve`: list all refs, then keep those passing
`Git.predicate` (the async fan-out over the pure predicate preserves
input order). -/
def Git.retrieve (g : GitCfg) (lines : List String) : Except Unit (List GitRef) :=
  (getAllRefs lines).map (fun refs => refs.filter (Git.predicate g))

/- ----------------------------------------------------------------- -/
/- Orchestration driver (`driver.py`).                                -/

/-- Outcome of one step of a revision build task: it returns normally,
raises a `BuildError`, or raises any other exception class (for the
`Git` provider a failing checkout raises `CalledProcessError`, which is
not a `BuildError`). -/
inductive StepResult where
  | ok
  | raiseBuildError
  | raiseOther
deriving DecidableEq, Repr

/-- Oracle for the three failable steps of `Driver.build_revision`:
`vcs.checkout`, entering the environment returned by
`init_environment`, and `builder.build`. -/
structure RevSim where
  checkout : StepResult
  envEnter : StepResult
  build : StepResult
deriving DecidableEq, Repr

/-- Did every step of the task run normally? -/
def revSucceeds (s : RevSim) : Bool :=
  s.checkout == .ok && s.envEnter == .ok && s.build == .ok

/-- Does no step raise an exception other than `BuildError`? -/
def revNoOther (s : RevSim) : Bool :=
  s.checkout != .raiseOther && s.envEnter != .raiseOther && s.build != .raiseOther

/-- `Driver.build_revision`: the steps run in order inside
`try: ... except BuildError:`; a `BuildError` from any step invokes the
`build_failed` hook (which only logs) and the task ends without
touching `builds`; normal completion invokes `build_succeeded`, which
appends the revision to `builds`; any other exception escapes the task
boundary (`Except.error`). -/
def Driver.build_revision (sim : GitRef → RevSim) (builds : List GitRef) (rev : GitRef) :
    Except Unit (List GitRef) :=
  match (sim rev).checkout with
  | .raiseBuildError => .ok builds
  | .raiseOther => .error ()
  | .ok =>
    match (sim rev).envEnter with
    | .raiseBuildError => .ok builds
    | .raiseOther => .error ()
    | .ok =>
      match (sim rev).build with
      | .raiseBuildError => .ok builds
      | .raiseOther => .error ()
      | .ok => .ok (builds ++ [rev])

/-- `Driver.arun` after `init`: run one `build_revision` task per target
and gather.  The single-threaded event loop serializes the appends; the
completion order is nondeterministic, so the model fixes target order —
membership and counts are order-independent.  An exception escaping a
task propagates out of `asyncio.gather`, so `arun` raises and
`build_root` never runs. -/
def Driver.arun (sim : GitRef → RevSim) (targets : List GitRef) : Except Unit (List GitRef) :=
  targets.foldlM (Driver.build_revision sim) []

/-- The wire value `DefaultDriver.build_root` writes to `versions.json`:
`self.encoder.encode(self.builds)` with the global encoder. -/
def DefaultDriver.build_root_manifest (builds : List GitRef) : PyValue :=
  Encoder.transform (.list (builds.map PyValue.ref))

/-- The condition on which `DefaultDriver.__init__` raises `ValueError`,
exactly as written in the source:
`isinstance(builder, dict) or isinstance(env, dict) and not selector`
(Python parses this as `A or (B and (not C))`). -/
def DefaultDriver.init_raises (builderIsDict envIsDict selectorProvided : Bool) : Bool :=
  builderIsDict || (envIsDict && !selectorProvided)

/-- The condition under which construction should raise according to the
claim and the class docstring: a mapping was passed for `builder` or
`env` and no selector was provided. -/
def DefaultDriver.init_raises_claimed (builderIsDict envIsDict selectorProvided : Bool) : Bool :=
  (builderIsDict || envIsDict) && !selectorProvided

/-- Values bound in the root template-rendering context. -/
inductive CtxVal where
  | revs (rs : List GitRef)
  | path (p : String)
deriving DecidableEq, Repr

/-- The root template-rendering context. -/
abbrev RootCtx := List (String × CtxVal)

/-- The context computation of `DefaultDriver.build_root`: a
user-supplied `root_data_factory` wins; otherwise the default mapping
`{"revisions": self.builds, "repo": self.root}`. -/
def DefaultDriver.build_root_context (factory : Option (List GitRef → String → RootCtx))
    (builds : List GitRef) (root : String) : RootCtx :=
  match factory with
  | some f => f builds root
  | Option.none => [("revisions", CtxVal.revs builds), ("repo", CtxVal.path root)]

/-- The template pass of `DefaultDriver.build_root`: every template the
loader finds under `template_dir` (given here as relative path plus its
jinja render function, which is stdlib-external) is rendered with the
context and written to the same relative path under `output_dir`. -/
def DefaultDriver.render_templates (templates : List (String × (RootCtx → String)))
    (ctx : RootCtx) (outputDir : String) : List (String × String) :=
  templates.map (fun t => (outputDir ++ "/" ++ t.1, t.2 ctx))

/-- The `mock` mapping handed to `Driver.build_local`. -/
structure MockData where
  current : GitRef
  revisions : List GitRef

/-- The successful-build list after `Driver.build_local` runs with mock
data: `self.targets = self.builds = self.mock["revisions"]` binds both
attributes to the same list object; the current revision is appended to
that shared list when absent; after the single build succeeds,
`build_succeeded` appends it once more. -/
def Driver.build_local_builds (mock : MockData) : List GitRef :=
  let l := mock.revisions
  let l2 := if mock.current ∈ l then l else l ++ [mock.current]
  l2 ++ [mock.current]

/-- `Driver.build_local`: on a failing build the exception propagates
(`Except.error`); on success `builds` is as above and `build_root` then
writes the manifest from it. -/
def Driver.build_local (mock : MockData) (buildOk : Bool) : Except Unit (List GitRef) :=
  if buildOk then .ok (Driver.build_local_builds mock) else .error ()

/- ================================================================= -/
/- Theorems.                                                          -/
/- ================================================================= -/

theorem string_data_mk (l : List Char) : (String.mk l).data = l := rfl

theorem digitChar_isDigit (m : Nat) (h : m < 10) : isDigitChar (digitChar m) = true := by
  interval_cases m <;> decide

theorem digitChar_toNat (m : Nat) (h : m < 10) : (digitChar m).toNat = 48 + m := by
  interval_cases m <;> decide

theorem natToDigits_ne_nil (n : Nat) : natToDigits n ≠ [] := by
  rw [natToDigits]
  split
  · simp
  · simp

theorem natToDigits_all (n : Nat) : (natToDigits n).all isDigitChar = true := by
  induction n using Nat.strong_induction_on with
  | _ n ih =>
    rw [natToDigits]
    split
    · next h => simp [digitChar_isDigit n h]
    · next h =>
      have h10 : 10 ≤ n := Nat.le_of_not_lt h
      have hlt : n / 10 < n := Nat.div_lt_self (by omega) (by omega)
      simp only [List.all_append]
      rw [ih (n / 10) hlt]
      simp [digitChar_isDigit (n % 10) (Nat.mod_lt n (by omega))]

theorem natToDigits_foldl (n : Nat) :
    (natToDigits n).foldl (fun a c => a * 10 + (c.toNat - 48)) 0 = n := by
  induction n using Nat.strong_induction_on with
  | _ n ih =>
    rw [natToDigits]
    split
    · next h => simp [digitChar_toNat n h]
    · next h =>
      have h10 : 10 ≤ n := Nat.le_of_not_lt h
      have hlt : n / 10 < n := Nat.div_lt_self (by omega) (by omega)
      rw [List.foldl_append, ih (n / 10) hlt]
      simp only [List.foldl_cons, List.foldl_nil]
      rw [digitChar_toNat (n % 10) (Nat.mod_lt n (by omega))]
      omega

theorem parseIso_isoformat (d : Nat) : parseIso (isoformat d) = some d := by
  unfold parseIso isoformat
  rw [if_pos]
  · rw [string_data_mk, natToDigits_foldl]
  · exact ⟨by rw [string_data_mk]; exact natToDigits_ne_nil d,
           by rw [string_data_mk]; exact natToDigits_all d⟩

theorem decode_dtWire (d : Nat) :
    Decoder.decodeWire (jsonDumpLoad (dtWire d)) = .ok (.dt d) := by
  simp [dtWire, jsonDumpLoad, jsonDumpLoadKVs, jsonDumpLoadList, Decoder.decodeWire,
    Decoder.decodeWireKVs, Decoder.decodeWireList, Decoder.object_hook, pyLookup,
    stdHookFromJson, stdHookId, gitRefTypeId, gitRefId, Bind.bind, Except.bind,
    parseIso_isoformat d]

theorem decode_refTypeWire (t : GitRefType) :
    Decoder.decodeWire (jsonDumpLoad (refTypeWire t)) = .ok (.refType t) := by
  cases t <;>
    simp [refTypeWire, GitRefType.nameStr, GitRefType.fromJsonFields, jsonDumpLoad,
      jsonDumpLoadKVs, jsonDumpLoadList, Decoder.decodeWire, Decoder.decodeWireKVs,
      Decoder.decodeWireList, Decoder.object_hook, pyLookup, stdHookId, gitRefTypeId,
      gitRefId, Bind.bind, Except.bind]

theorem decode_gitRefWire (r : GitRef) :
    Decoder.decodeWire (jsonDumpLoad (gitRefWire r)) = .ok (.ref r) := by
  obtain ⟨n, o, rf, t, d, rem⟩ := r
  cases t <;> cases rem <;>
    simp [gitRefWire, refTypeWire, dtWire, optStrWire, GitRefType.nameStr,
      GitRefType.fromJsonFields, GitRef.fromJsonFields, stdHookFromJson, jsonDumpLoad,
      jsonDumpLoadKVs, jsonDumpLoadList, Decoder.decodeWire, Decoder.decodeWireKVs,
      Decoder.decodeWireList, Decoder.object_hook, pyLookup, stdHookId, gitRefTypeId,
      gitRefId, dtInstanceId, Bind.bind, Except.bind, parseIso_isoformat d]

theorem pyLookup_eq_none (k : String) (kvs : List (String × PyValue))
    (h : ∀ kv ∈ kvs, kv.1 ≠ k) : pyLookup k kvs = Option.none := by
  induction kvs with
  | nil => rfl
  | cons hd tl ih =>
    simp only [pyLookup]
    rw [if_neg (h hd (by simp))]
    exact ih (fun kv hkv => h kv (by simp [hkv]))

theorem object_hook_plain (kvs : List (String × PyValue))
    (h : ∀ kv ∈ kvs, kv.1 ≠ "__jsonclass__" ∧ kv.1 ≠ "__jsonhook__") :
    Decoder.object_hook kvs = .ok (.dict kvs) := by
  unfold Decoder.object_hook
  rw [pyLookup_eq_none _ _ (fun kv hkv => (h kv hkv).1),
      pyLookup_eq_none _ _ (fun kv hkv => (h kv hkv).2)]

theorem roundtrip_list (xs : List PyValue) (ih : ∀ x ∈ xs, decodeEncode x = .ok x) :
    Decoder.decodeWireList (jsonDumpLoadList (Encoder.transformList xs)) = .ok xs := by
  induction xs with
  | nil => simp [Encoder.transformList, jsonDumpLoadList, Decoder.decodeWireList]
  | cons hd tl ihl =>
    have h1 : Decoder.decodeWire (jsonDumpLoad (Encoder.transform hd)) = .ok hd :=
      ih hd (by simp)
    have h2 := ihl (fun x hx => ih x (by simp [hx]))
    simp [Encoder.transformList, jsonDumpLoadList, Decoder.decodeWireList,
      Bind.bind, Except.bind, h1, h2]

theorem roundtrip_kvs (kvs : List (String × PyValue))
    (ih : ∀ kv ∈ kvs, decodeEncode kv.2 = .ok kv.2) :
    Decoder.decodeWireKVs (jsonDumpLoadKVs (Encoder.transformKVs kvs)) = .ok kvs := by
  induction kvs with
  | nil => simp [Encoder.transformKVs, jsonDumpLoadKVs, Decoder.decodeWireKVs]
  | cons hd tl ihl =>
    have h1 : Decoder.decodeWire (jsonDumpLoad (Encoder.transform hd.2)) = .ok hd.2 :=
      ih hd (by simp)
    have h2 := ihl (fun kv hkv => ih kv (by simp [hkv]))
    simp [Encoder.transformKVs, jsonDumpLoadKVs, Decoder.decodeWireKVs,
      Bind.bind, Except.bind, h1, h2]

/-- C2: decoding the encoding is the identity on plain scalars, lists,
string-keyed mappings avoiding the reserved wrapper keys, registered
extensible-type instances (`GitRef`, `GitRefType`, `datetime` via
`std_hook`) and nested combinations of these; all fields and ordering
are preserved.  (Amended from the original claim: a tuple — also an
ordered sequence — comes back as a list, see the counterexample.) -/
theorem C2_roundtrip (x : PyValue) (h : RT x) : decodeEncode x = Except.ok x := by
  induction h with
  | null => rfl
  | bool b => rfl
  | int n => rfl
  | str s => rfl
  | dt d =>
    show Decoder.decodeWire (jsonDumpLoad (Encoder.transform (.dt d))) = _
    rw [Encoder.transform]
    exact decode_dtWire d
  | refType t =>
    show Decoder.decodeWire (jsonDumpLoad (Encoder.transform (.refType t))) = _
    rw [Encoder.transform]
    exact decode_refTypeWire t
  | ref r =>
    show Decoder.decodeWire (jsonDumpLoad (Encoder.transform (.ref r))) = _
    rw [Encoder.transform]
    exact decode_gitRefWire r
  | list xs hxs ih =>
    show Decoder.decodeWire (jsonDumpLoad (Encoder.transform (.list xs))) = _
    simp [Encoder.transform, jsonDumpLoad, Decoder.decodeWire, Bind.bind, Except.bind,
      roundtrip_list xs ih]
  | dict kvs hvals hkeys ih =>
    show Decoder.decodeWire (jsonDumpLoad (Encoder.transform (.dict kvs))) = _
    simp [Encoder.transform, jsonDumpLoad, Decoder.decodeWire, Bind.bind, Except.bind,
      roundtrip_kvs kvs ih, object_hook_plain kvs hkeys]

theorem C2_roundtrip_witness :
    decodeEncode (.dict [("revisions", .list
        [.ref { name := "main", obj := "a1", ref := "refs/heads/main", type_ := .BRANCH,
                date := 100 },
         .ref { name := "v1.0", obj := "b2", ref := "refs/tags/v1.0", type_ := .TAG,
                date := 50, remote := some "origin" }]),
      ("current", .dt 7), ("n", .int 3)])
    = Except.ok (.dict [("revisions", .list
        [.ref { name := "main", obj := "a1", ref := "refs/heads/main", type_ := .BRANCH,
                date := 100 },
         .ref { name := "v1.0", obj := "b2", ref := "refs/tags/v1.0", type_ := .TAG,
                date := 50, remote := some "origin" }]),
      ("current", .dt 7), ("n", .int 3)]) := by
  apply C2_roundtrip
  apply RT.dict
  · intro kv hkv
    simp only [List.mem_cons, List.not_mem_nil, or_false] at hkv
    rcases hkv with h | h | h <;> subst h
    · apply RT.list
      intro x hx
      simp only [List.mem_cons, List.not_mem_nil, or_false] at hx
      rcases hx with h | h <;> subst h
      · exact RT.ref _
      · exact RT.ref _
    · exact RT.dt _
    · exact RT.int _
  · intro kv hkv
    simp only [List.mem_cons, List.not_mem_nil, or_false] at hkv
    rcases hkv with h | h | h <;> subst h <;> exact ⟨by decide, by decide⟩

/-- C2 counterexample: a tuple is an ordered sequence the encoder
supports, but `decode(encode((1,)))` returns the list `[1]`, which is
not equal to the tuple `(1,)` — so the round-trip claim fails as stated
for tuples. -/
theorem C2_tuple_not_roundtrip :
    decodeEncode (.tuple [.int 1]) = Except.ok (.list [.int 1]) ∧
    PyValue.list [.int 1] ≠ PyValue.tuple [.int 1] := by
  constructor
  · simp [decodeEncode, Encoder.transform, Encoder.transformList, jsonDumpLoad,
      jsonDumpLoadList, Decoder.decodeWire, Decoder.decodeWireList, Bind.bind, Except.bind]
  · intro h
    exact PyValue.noConfusion h

/-- C3: decoding a wire payload whose single-key wrapper
(`__jsonclass__` or `__jsonhook__`) references an unregistered type or
hook identifier returns the raw wire mapping unmodified instead of
raising. -/
theorem C3_unregistered_passthrough (cname hname cn : String) (f g : PyValue)
    (h1 : cname ≠ gitRefTypeId) (h2 : cname ≠ gitRefId)
    (h3 : Decoder.decodeWire f = .ok f)
    (h4 : hname ≠ stdHookId) (h5 : Decoder.decodeWire g = .ok g) :
    Decoder.decodeWire (.dict [("__jsonclass__", .list [.str cname, f])])
      = .ok (.dict [("__jsonclass__", .list [.str cname, f])]) ∧
    Decoder.decodeWire (.dict [("__jsonhook__", .list [.str hname, .str cn, g])])
      = .ok (.dict [("__jsonhook__", .list [.str hname, .str cn, g])]) := by
  constructor <;>
    simp [Decoder.decodeWire, Decoder.decodeWireKVs, Decoder.decodeWireList,
      Decoder.object_hook, pyLookup, Bind.bind, Except.bind, h1, h2, h3, h4, h5]

theorem C3_unregistered_passthrough_witness :
    Decoder.decodeWire (.dict [("__jsonclass__", .list [.str "acme.Widget", .int 1])])
      = .ok (.dict [("__jsonclass__", .list [.str "acme.Widget", .int 1])]) ∧
    Decoder.decodeWire (.dict [("__jsonhook__",
        .list [.str "acme.hook", .str "acme.Widget", .str "x"])])
      = .ok (.dict [("__jsonhook__",
        .list [.str "acme.hook", .str "acme.Widget", .str "x"])]) :=
  C3_unregistered_passthrough "acme.Widget" "acme.hook" "acme.Widget" (.int 1) (.str "x")
    (by simp [gitRefTypeId]) (by simp [gitRefId]) rfl (by simp [stdHookId]) rfl

/-- C4 counterexample: two refs `a`, `b` with `a.date < b.date` (so the
claimed createdAt total order puts `a` strictly below `b`) for which
Python nevertheless evaluates `a >= b` to `True`: `GitRef` is a
`NamedTuple`, `total_ordering` overrides nothing, and `>=` is inherited
lexicographic tuple comparison, which here decides on the `name` field.
Hence the comparison operators do not order revisions by `createdAt` as
the claim states. -/
theorem C4_ops_not_by_date :
    GitRef.lt { name := "z", obj := "", ref := "", type_ := .TAG, date := 0 }
        { name := "a", obj := "", ref := "", type_ := .TAG, date := 1 } = true ∧
    GitRef.pyGe { name := "z", obj := "", ref := "", type_ := .TAG, date := 0 }
        { name := "a", obj := "", ref := "", type_ := .TAG, date := 1 } = Except.ok true ∧
    ({ name := "z", obj := "", ref := "", type_ := .TAG, date := 0 } : GitRef)
      ≠ { name := "a", obj := "", ref := "", type_ := .TAG, date := 1 } := by
  refine ⟨by decide, ?_, by decide⟩
  simp [GitRef.pyGe, GitRef.pyCmp, strCmp, compare, compareOfLessAndEq]
  rfl

/-- C4 amended: the `<` operator itself does order by `createdAt`
(`a < b` iff `a.date < b.date`), and comparing two revisions with equal
timestamps is defined and returns `False` (no crash); but the remaining
comparison operators are tuple-lexicographic (see the counterexample),
so only `<` orders by `createdAt`. -/
theorem C4_lt_by_date (a b : GitRef) :
    (GitRef.lt a b = true ↔ a.date < b.date) ∧
    (a.date = b.date → GitRef.lt a b = false ∧ GitRef.lt b a = false) := by
  constructor
  · simp [GitRef.lt]
  · intro h
    constructor <;> simp [GitRef.lt, h]

theorem C4_lt_by_date_witness :
    GitRef.lt { name := "a", obj := "", ref := "", type_ := .TAG, date := 5 }
        { name := "b", obj := "", ref := "", type_ := .BRANCH, date := 5 } = false ∧
    GitRef.lt { name := "b", obj := "", ref := "", type_ := .BRANCH, date := 5 }
        { name := "a", obj := "", ref := "", type_ := .TAG, date := 5 } = false :=
  (C4_lt_by_date
    { name := "a", obj := "", ref := "", type_ := .TAG, date := 5 }
    { name := "b", obj := "", ref := "", type_ := .BRANCH, date := 5 }).2 rfl

/-- C5: evaluating `refs_by_type` at a single-pass iterator yielding one
tag (the declared parameter type is `Iterator[GitRef]`): the first
`list(filter(...))` pass exhausts the iterator, so the tag is lost and
the result is `([], [])` instead of the claimed loss-free partition —
which the same input produces when passed as a re-iterable list. -/
theorem C5_iterator_drops_tags :
    refs_by_type_iter [{ name := "v1", obj := "", ref := "", type_ := .TAG, date := 0 }]
      = ([], []) ∧
    refs_by_type [{ name := "v1", obj := "", ref := "", type_ := .TAG, date := 0 }]
      = ([], [{ name := "v1", obj := "", ref := "", type_ := .TAG, date := 0 }]) := by
  constructor <;> rfl

/-- C6: the filter predicate holds exactly when the kind-specific name
regex fully matches, the remote equals the configured selector, and the
optional secondary predicate (when supplied) holds; so flipping any of
the three to false makes the result false, and a false secondary
predicate yields `False`, not an error. -/
theorem C6_predicate_conj (g : GitCfg) (ref : GitRef) :
    Git.predicate g ref = true ↔
      ((match ref.type_ with
        | GitRefType.TAG => g.tag_regex ref.name
        | GitRefType.BRANCH => g.branch_regex ref.name) = true ∧
       ref.remote = g.remote ∧
       (∀ p, g.pred = some p → p ref = true)) := by
  rcases g with ⟨br, tr, rem, pr⟩
  obtain ⟨n, o, rf, t, d, rrem⟩ := ref
  cases pr <;> cases t <;>
    simp [Git.predicate, Bool.and_eq_true, decide_eq_true_iff, and_assoc] <;>
    tauto

/-- C7 counterexample: a single unparseable entry in the backing
store output (here a line without the expected tab-separated fields)
makes `_parse_ref` raise `ValueError` while unpacking `line.split`, so
the whole listing (and `Git.retrieve`) aborts instead of skipping the
entry and continuing. -/
theorem C7_unparseable_aborts :
    getAllRefs ["garbage"] = .error () ∧
    Git.retrieve { branch_regex := fun _ => true, tag_regex := fun _ => true }
        ["garbage"] = .error () := by
  constructor <;> rfl

/-- C7 amended: entries whose refname does not match the expected ref
pattern, or whose ref type is unrecognized, are logged and skipped
without aborting the listing; but a line whose tab-separated field
structure or date cannot be parsed raises `ValueError` and aborts the
whole listing (the source has no `DiscoveryError` and does not confine
failures to an unreachable backing store). -/
theorem C7_skips_irrelevant (lines : List String)
    (h : ∀ l ∈ lines, (parseRef l).isOk = true) :
    getAllRefs lines = .ok (goodRefs lines) := by
  induction lines with
  | nil => rfl
  | cons l ls ih =>
    have hl := h l (by simp)
    have hrest := ih (fun x hx => h x (by simp [hx]))
    cases hp : parseRef l with
    | error e =>
      rw [hp] at hl
      simp [Except.isOk, Except.toBool] at hl
    | ok o =>
      cases o with
      | none =>
        simp [getAllRefs, goodRefs, List.filterMap_cons, hp, Bind.bind, Except.bind,
          hrest]
      | some gref =>
        simp [getAllRefs, goodRefs, List.filterMap_cons, hp, Bind.bind, Except.bind,
          hrest]

theorem C7_skips_irrelevant_witness :
    getAllRefs ["h1\trefs/heads/main\t5", "h2\tHEAD\t6", "h3\trefs/tags/v1\t7"]
      = .ok (goodRefs ["h1\trefs/heads/main\t5", "h2\tHEAD\t6", "h3\trefs/tags/v1\t7"]) :=
  C7_skips_irrelevant ["h1\trefs/heads/main\t5", "h2\tHEAD\t6", "h3\trefs/tags/v1\t7"]
    (by decide)

theorem arun_aux (sim : GitRef → RevSim) (targets : List GitRef) (acc : List GitRef)
    (h : ∀ r ∈ targets, revNoOther (sim r) = true) :
    targets.foldlM (Driver.build_revision sim) acc
      = .ok (acc ++ targets.filter (fun r => revSucceeds (sim r))) := by
  induction targets generalizing acc with
  | nil => simp [List.foldlM, pure, Except.pure]
  | cons r rs ih =>
    have hr := h r (by simp)
    have hrs : ∀ x ∈ rs, revNoOther (sim x) = true := fun x hx => h x (by simp [hx])
    simp only [revNoOther, Bool.and_eq_true, bne_iff_ne] at hr
    rw [List.foldlM_cons]
    cases hco : (sim r).checkout with
    | raiseOther => exact absurd hco hr.1.1
    | raiseBuildError =>
      simp [Driver.build_revision, hco, Bind.bind, Except.bind, ih acc hrs,
        List.filter_cons, revSucceeds, hco]
    | ok =>
      cases hee : (sim r).envEnter with
      | raiseOther => exact absurd hee hr.1.2
      | raiseBuildError =>
        simp [Driver.build_revision, hco, hee, Bind.bind, Except.bind, ih acc hrs,
          List.filter_cons, revSucceeds]
      | ok =>
        cases hb : (sim r).build with
        | raiseOther => exact absurd hb hr.2
        | raiseBuildError =>
          simp [Driver.build_revision, hco, hee, hb, Bind.bind, Except.bind, ih acc hrs,
            List.filter_cons, revSucceeds]
        | ok =>
          simp [Driver.build_revision, hco, hee, hb, Bind.bind, Except.bind,
            ih (acc ++ [r]) hrs, List.filter_cons, revSucceeds]

theorem length_filter_add (l : List GitRef) (p : GitRef → Bool) :
    (l.filter p).length + (l.filter (fun r => !(p r))).length = l.length := by
  induction l with
  | nil => rfl
  | cons hd tl ih =>
    by_cases hp : p hd = true <;> simp [List.filter_cons, hp] <;> omega

theorem manifest_decodes (L : List GitRef) :
    Decoder.decodeWire (jsonDumpLoad (DefaultDriver.build_root_manifest L))
      = .ok (.list (L.map PyValue.ref)) := by
  have hih : ∀ x ∈ L.map PyValue.ref, decodeEncode x = .ok x := by
    intro x hx
    obtain ⟨r, hr, rfl⟩ := List.mem_map.mp hx
    show Decoder.decodeWire (jsonDumpLoad (Encoder.transform (.ref r))) = _
    rw [Encoder.transform]
    exact decode_gitRefWire r
  unfold DefaultDriver.build_root_manifest
  simp [Encoder.transform, jsonDumpLoad, Decoder.decodeWire, Bind.bind, Except.bind,
    roundtrip_list _ hih]

/-- C1 amended: when every per-revision failure is a `BuildError`
(raised by environment provisioning or the Builder — the exception
class `build_revision` actually catches), `arun` completes without
raising, the Successful Build Set consists of exactly the N−K
successful targets, and the `versions.json` wire value written by
`build_root` decodes back to exactly those revisions.  A checkout
failure of the `Git` provider, however, raises `CalledProcessError`,
which is not a `BuildError` and escapes the task boundary (see the
counterexample). -/
theorem C1_builderrors_contained (sim : GitRef → RevSim) (targets : List GitRef)
    (h : ∀ r ∈ targets, revNoOther (sim r) = true) :
    Driver.arun sim targets = .ok (targets.filter (fun r => revSucceeds (sim r))) ∧
    (targets.filter (fun r => revSucceeds (sim r))).length +
      (targets.filter (fun r => !(revSucceeds (sim r)))).length = targets.length ∧
    Decoder.decodeWire (jsonDumpLoad (DefaultDriver.build_root_manifest
        (targets.filter (fun r => revSucceeds (sim r)))))
      = .ok (.list ((targets.filter (fun r => revSucceeds (sim r))).map PyValue.ref)) :=
  ⟨by unfold Driver.arun; simpa using arun_aux sim targets [] h,
   length_filter_add targets _,
   manifest_decodes _⟩

theorem C1_builderrors_contained_witness :
    Driver.arun
        (fun r => if r.name = "dev"
          then { checkout := .ok, envEnter := .ok, build := .raiseBuildError }
          else { checkout := .ok, envEnter := .ok, build := .ok })
        [{ name := "main", obj := "", ref := "", type_ := .BRANCH, date := 0 },
         { name := "dev", obj := "", ref := "", type_ := .BRANCH, date := 1 },
         { name := "v1", obj := "", ref := "", type_ := .TAG, date := 2 }]
      = .ok ([{ name := "main", obj := "", ref := "", type_ := .BRANCH, date := 0 },
              { name := "dev", obj := "", ref := "", type_ := .BRANCH, date := 1 },
              { name := "v1", obj := "", ref := "", type_ := .TAG, date := 2 }].filter
          (fun r => revSucceeds (if r.name = "dev"
            then { checkout := .ok, envEnter := .ok, build := .raiseBuildError }
            else { checkout := .ok, envEnter := .ok, build := .ok }))) := by
  exact (C1_builderrors_contained
    (fun r => if r.name = "dev"
      then { checkout := .ok, envEnter := .ok, build := .raiseBuildError }
      else { checkout := .ok, envEnter := .ok, build := .ok })
    [{ name := "main", obj := "", ref := "", type_ := .BRANCH, date := 0 },
     { name := "dev", obj := "", ref := "", type_ := .BRANCH, date := 1 },
     { name := "v1", obj := "", ref := "", type_ := .TAG, date := 2 }]
    (by decide)).1

/-- C1 counterexample: a single target whose checkout step raises an
exception that is not a `BuildError` (the `CalledProcessError` of the
`Git` provider — the code has no `MaterializeError` and
`build_revision` catches only `BuildError`): the failure escapes the
task boundary and the top-level run raises instead of completing, so
the claim fails for the `MaterializeError during checkout` case. -/
theorem C1_checkout_failure_escapes :
    Driver.arun (fun _ => { checkout := .raiseOther, envEnter := .ok, build := .ok })
        [{ name := "main", obj := "", ref := "", type_ := .BRANCH, date := 0 }]
      = .error () := rfl

/-- C8: evaluating the constructor guard at a dict passed for `builder`
together with a provided selector (and a plain `env`): the code raises
`ValueError` because the guard parses as
`isinstance(builder, dict) or (isinstance(env, dict) and not selector)`,
while the claim (and the class docstring) require construction to
succeed in exactly this situation. -/
theorem C8_selector_with_builder_dict_raises :
    DefaultDriver.init_raises true false true = true ∧
    DefaultDriver.init_raises_claimed true false true = false :=
  ⟨rfl, rfl⟩

/-- C9 counterexample: with no user root-data factory, the default
context binds the project root under the key `"repo"`, not `"root"` —
looking up `"root"` finds nothing, so the context is not the claimed
mapping `{revisions: ..., root: ...}`. -/
theorem C9_context_key_is_repo :
    (DefaultDriver.build_root_context Option.none [] "proj").lookup "root"
      = Option.none ∧
    (DefaultDriver.build_root_context Option.none [] "proj").lookup "repo"
      = some (CtxVal.path "proj") :=
  ⟨rfl, rfl⟩

/-- C9 amended: with no user root-data factory the rendering context is
exactly `{"revisions": the Successful Build Set, "repo": the project
root}` (the root is bound under the key `repo`, not `root`), and every
template found in the template source directory is rendered with that
context to the corresponding relative path under the output root. -/
theorem C9_default_context (builds : List GitRef) (root : String)
    (templates : List (String × (RootCtx → String))) (outDir : String) :
    DefaultDriver.build_root_context Option.none builds root
      = [("revisions", CtxVal.revs builds), ("repo", CtxVal.path root)] ∧
    DefaultDriver.render_templates templates
        (DefaultDriver.build_root_context Option.none builds root) outDir
      = templates.map (fun t => (outDir ++ "/" ++ t.1,
          t.2 [("revisions", CtxVal.revs builds), ("repo", CtxVal.path root)])) :=
  ⟨rfl, rfl⟩

/-- C10: in a successful mock-mode run whose mock current revision
occurs at most once in the mock revisions list, the Successful Build
Set contains the current revision exactly twice — `targets` and
`builds` alias one list, the current revision is first ensured to be a
member, and `build_succeeded` appends it again — and the manifest wire
value written by the root-merge decodes to exactly that list (listing
the current revision twice). -/
theorem C10_local_build_duplicates_current (mock : MockData)
    (h : mock.revisions.count mock.current ≤ 1) :
    Driver.build_local mock true = .ok (Driver.build_local_builds mock) ∧
    (Driver.build_local_builds mock).count mock.current = 2 ∧
    Decoder.decodeWire (jsonDumpLoad (DefaultDriver.build_root_manifest
        (Driver.build_local_builds mock)))
      = .ok (.list ((Driver.build_local_builds mock).map PyValue.ref)) := by
  refine ⟨rfl, ?_, manifest_decodes _⟩
  unfold Driver.build_local_builds
  by_cases hc : mock.current ∈ mock.revisions
  · have h1 : mock.revisions.count mock.current = 1 := by
      have := List.count_pos_iff.mpr hc
      omega
    simp [hc, List.count_append, h1]
  · have h0 : mock.revisions.count mock.current = 0 := by
      simp [List.count_eq_zero, hc]
    simp [hc, List.count_append, h0]

theorem C10_local_build_duplicates_current_witness :
    Driver.build_local
        { current := { name := "local", obj := "", ref := "", type_ := .BRANCH, date := 6 },
          revisions :=
            [{ name := "v1", obj := "", ref := "", type_ := .TAG, date := 1 },
             { name := "local", obj := "", ref := "", type_ := .BRANCH, date := 6 }] }
        true
      = .ok (Driver.build_local_builds
          { current := { name := "local", obj := "", ref := "", type_ := .BRANCH, date := 6 },
            revisions :=
              [{ name := "v1", obj := "", ref := "", type_ := .TAG, date := 1 },
               { name := "local", obj := "", ref := "", type_ := .BRANCH, date := 6 }] }) ∧
    (Driver.build_local_builds
        { current := { name := "local", obj := "", ref := "", type_ := .BRANCH, date := 6 },
          revisions :=
            [{ name := "v1", obj := "", ref := "", type_ := .TAG, date := 1 },
             { name := "local", obj := "", ref := "", type_ := .BRANCH, date := 6 }] }).count
      { name := "local", obj := "", ref := "", type_ := .BRANCH, date := 6 } = 2 := by
  have := C10_local_build_duplicates_current
    { current := { name := "local", obj := "", ref := "", type_ := .BRANCH, date := 6 },
      revisions :=
        [{ name := "v1", obj := "", ref := "", type_ := .TAG, date := 1 },
         { name := "local", obj := "", ref := "", type_ := .BRANCH, date := 6 }] }
    (by decide)
  exact ⟨this.1, this.2.1⟩
